import Mathlib

/-!
Verification development for the kintari-be repository: a shallow embedding of
the document-ingestion pipeline (validation, keyword extraction, type
classification, persistence) and of the query-intent router, together with
proofs of the specified properties.

Python strings are modelled as lists of characters (`Str`); Python byte
strings as lists of naturals.  Substring containment (`in`), `str.replace`,
`str.strip`, `str.lower`, regular-expression quote extraction and SQL `LIKE`
matching are each given executable models below, translated from the source.
-/

/-- Characters of a Python string; all text is modelled as a list of characters. -/
abbrev Str := List Char

/-- Turns a Lean string literal into the character-list model. -/
def S (s : String) : Str := s.toList

/-- ASCII lower-casing of one character, as Python `str.lower` acts on ASCII. -/
def lowerCh (c : Char) : Char :=
  if 65 ≤ c.toNat ∧ c.toNat ≤ 90 then Char.ofNat (c.toNat + 32) else c

/-- Python `str.lower` (restricted to its ASCII action). -/
def lowerStr (s : Str) : Str := s.map lowerCh

/-- `startsW p s` holds when `p` is a prefix of `s` (Python `str.startswith` /
`bytes.startswith`). -/
def startsW {α : Type} [DecidableEq α] : List α → List α → Bool
  | [], _ => true
  | _ :: _, [] => false
  | p :: ps, c :: cs => p = c && startsW ps cs

/-- Python substring containment `p in s`. -/
def containsSub {α : Type} [DecidableEq α] (p : List α) : List α → Bool
  | [] => startsW p []
  | c :: rest => startsW p (c :: rest) || containsSub p rest

/-- Python `s.endswith(suf)`. -/
def endsW {α : Type} [DecidableEq α] (suf s : List α) : Bool :=
  startsW suf.reverse s.reverse

/-- Recursion core of `replaceBySpace`; the fuel argument bounds the number
of scanning steps (each step consumes at least one character), making the
recursion structural — the zero case is unreachable from the wrapper. -/
def replaceAux (p : Str) : Nat → Str → Str
  | _, [] => []
  | 0, s => s
  | fuel + 1, c :: rest =>
    if p ≠ [] ∧ startsW p (c :: rest) then
      ' ' :: replaceAux p fuel ((c :: rest).drop p.length)
    else
      c :: replaceAux p fuel rest

/-- Python `s.replace(p, " ")`: replace every non-overlapping occurrence of `p`
in `s`, scanning left to right, by a single space. -/
def replaceBySpace (p s : Str) : Str := replaceAux p s.length s

/-- Python whitespace test used by `str.strip`. -/
def isPySpace (c : Char) : Bool :=
  c = ' ' || c = '\t' || c = '\n' || c = '\r'

/-- Python `str.strip()` (whitespace from both ends). -/
def pyStrip (s : Str) : Str :=
  ((s.dropWhile isPySpace).reverse.dropWhile isPySpace).reverse

/-- A single or double quote, the character class of the extraction pattern. -/
def isQuoteCh (c : Char) : Bool := c = '\'' || c = '"'

/-- First match of the pattern `['"]([^'"]+)['"]` (as used with `re.search`):
scan for a quote character followed by a nonempty run of non-quote characters
followed by another quote character, and return the captured run. -/
def firstQuoted : Str → Option Str
  | [] => none
  | c :: rest =>
    if isQuoteCh c then
      let content := rest.takeWhile (fun d => !(isQuoteCh d))
      let rest2 := rest.dropWhile (fun d => !(isQuoteCh d))
      if !content.isEmpty && !rest2.isEmpty then some content else firstQuoted rest
    else firstQuoted rest

/-- Recursion core of `likeMatch`; each recursive call shrinks the combined
length of pattern and subject, so the fuel wrapper below makes the zero case
unreachable. -/
def likeAux : Nat → Str → Str → Bool
  | _, [], s => s.isEmpty
  | 0, _, _ => false
  | fuel + 1, '%' :: p, s =>
    likeAux fuel p s ||
      match s with
      | [] => false
      | _ :: s2 => likeAux fuel ('%' :: p) s2
  | fuel + 1, '_' :: p, s =>
    (match s with
     | [] => false
     | _ :: s2 => likeAux fuel p s2)
  | fuel + 1, c :: p, s =>
    match s with
    | [] => false
    | d :: s2 => c = d && likeAux fuel p s2

/-- SQL `LIKE` pattern matching (`%` matches any run, `_` any one character,
other characters literally); SQLAlchemy's `.like` as it behaves on the
lowered operands produced by the handlers. -/
def likeMatch (p s : Str) : Bool := likeAux (p.length + s.length) p s

/-- The handlers' column test `func.lower(col).like("%" + pat.lower() + "%")`;
a NULL column never matches. -/
def colLike (col : Option Str) (pat : Str) : Bool :=
  match col with
  | none => false
  | some v => likeMatch ('%' :: lowerStr pat ++ ['%']) (lowerStr v)

/-! ## Keyword extraction (`UniversalDocumentProcessor._extract_keywords`) -/

/-- ASCII letter, the class `[a-zA-Z]` of the tokenising pattern. -/
def isAsciiLetterB (c : Char) : Bool :=
  (97 ≤ c.toNat && c.toNat ≤ 122) || (65 ≤ c.toNat && c.toNat ≤ 90)

/-- Regex word character (letter, digit or underscore), deciding `\b`. -/
def isWordCharB (c : Char) : Bool :=
  isAsciiLetterB c || (48 ≤ c.toNat && c.toNat ≤ 57) || c = '_'

/-- `re.findall(r"\b[a-zA-Z]{4,}\b", s)`: the maximal runs of ASCII letters of
length at least 4 whose neighbouring characters (when present) are not word
characters.  `prevOk` records whether the position before the current suffix
is a valid left boundary. -/
def tokensAux : Nat → Bool → Str → List Str
  | _, _, [] => []
  | 0, _, _ => []
  | fuel + 1, prevOk, c :: rest =>
    if isAsciiLetterB c then
      let run := c :: rest.takeWhile isAsciiLetterB
      let rest2 := rest.dropWhile isAsciiLetterB
      let rightOk :=
        match rest2 with
        | [] => true
        | d :: _ => !(isWordCharB d)
      (if prevOk && rightOk && decide (4 ≤ run.length) then [run] else []) ++
        tokensAux fuel false rest2
    else
      tokensAux fuel (!(isWordCharB c)) rest

/-- `re.findall(r"\b[a-zA-Z]{4,}\b", text.lower())`; the scan consumes at
least one character per step, so fuelling by the length makes the zero case
unreachable. -/
def tokenizeWords (text : Str) : List Str :=
  tokensAux (lowerStr text).length true (lowerStr text)

/-- The fixed bilingual stopword set of `_extract_keywords`. -/
def stopwords : List Str :=
  [S "yang", S "dan", S "untuk", S "pada", S "dalam", S "dengan", S "adalah",
   S "dari", S "ini", S "itu", S "akan", S "dapat", S "telah", S "atau",
   S "oleh", S "sebagai", S "the", S "and", S "for", S "that", S "this",
   S "with", S "from", S "have", S "been", S "will", S "their", S "which"]

/-- The filter `word not in stopwords and len(word) > 3`. -/
def keptWords (ws : List Str) : List Str :=
  ws.filter (fun w => decide (w ∉ stopwords) && decide (3 < w.length))

/-- One step of the frequency-accumulation pass: `word_freq[word] =
word_freq.get(word, 0) + 1` on a dict modelled as an insertion-ordered
association list. -/
def bump : List (Str × Nat) → Str → List (Str × Nat)
  | [], w => [(w, 1)]
  | (k, n) :: rest, w =>
    if k = w then (k, n + 1) :: rest else (k, n) :: bump rest w

/-- The frequency-accumulation pass over the kept tokens. -/
def countFreq (ws : List Str) : List (Str × Nat) := ws.foldl bump []

/-- Stable insertion of one entry into a count-descending list: skip entries
with strictly larger count, so equal counts keep their existing order. -/
def insertDesc (x : Str × Nat) : List (Str × Nat) → List (Str × Nat)
  | [] => [x]
  | y :: ys => if x.2 < y.2 then y :: insertDesc x ys else x :: y :: ys

/-- `sorted(items, key=count, reverse=True)`: a stable descending sort by
count, realised as stable insertion sort. -/
def sortDesc : List (Str × Nat) → List (Str × Nat)
  | [] => []
  | x :: xs => insertDesc x (sortDesc xs)

/-- The insertion-ordered frequency table of `_extract_keywords`. -/
def word_freq (text : Str) : List (Str × Nat) :=
  countFreq (keptWords (tokenizeWords text))

/-- `UniversalDocumentProcessor._extract_keywords(text, top_n)`. -/
def extract_keywords (text : Str) (topN : Nat) : List Str :=
  ((sortDesc (word_freq text)).take topN).map Prod.fst

/-! ## Type classification (`UniversalDocumentProcessor.detect_document_type`) -/

/-- `UniversalDocumentProcessor.detect_document_type(filename, text)`. -/
def detect_document_type (filename text : Str) : String :=
  let f := lowerStr filename
  let t := lowerStr text
  if containsSub (S "po") f || containsSub (S "peraturan organisasi") (t.take 1000) then
    "HIPMI_PO"
  else if containsSub (S "ad") f || containsSub (S "anggaran dasar") (t.take 1000) then
    "HIPMI_AD"
  else if containsSub (S "art") f || containsSub (S "anggaran rumah tangga") (t.take 1000) then
    "HIPMI_ART"
  else if containsSub (S "sk") f || containsSub (S "surat keputusan") (t.take 1000) then
    "HIPMI_SK"
  else if containsSub (S "kontrak") f || containsSub (S "perjanjian") f ||
      containsSub (S "contract") f then
    "CONTRACT"
  else if containsSub (S "laporan") f || containsSub (S "report") f then
    "REPORT"
  else if containsSub (S "proposal") f then
    "PROPOSAL"
  else if containsSub (S "presentasi") f || containsSub (S "presentation") f ||
      containsSub (S "slide") f then
    "PRESENTATION"
  else if containsSub (S "peraturan") f || containsSub (S "regulation") f ||
      containsSub (S "kebijakan") f then
    "REGULATION"
  else if containsSub (S "manual") f || containsSub (S "panduan") f ||
      containsSub (S "guide") f then
    "MANUAL"
  else
    let c := t.take 2000
    if containsSub (S "hipmi") c then "HIPMI_DOCUMENT"
    else if containsSub (S "kontrak") c || containsSub (S "perjanjian") c then "CONTRACT"
    else if containsSub (S "laporan") c then "REPORT"
    else "OTHER"

/-! ## Members and the query-intent router (`app/routes/chat.py`) -/

/-- The Member columns read by the chat handlers (`app/models/member.py`);
nullable columns are `Option`s. -/
structure Member where
  id : Nat
  name : Option Str
  jabatan : Option Str
  status_kta : Option Str
  usia : Option Int
  jenis_kelamin : Option Str
  phone : Option Str
  email : Option Str
  instagram : Option Str
  nama_perusahaan : Option Str
  jabatan_dlm_akta_perusahaan : Option Str
  kategori_bidang_usaha : Option Str
  jmlh_karyawan : Option Int
deriving DecidableEq

/-- The structured `data` payload of each handler's answer dictionary.
Percentages are modelled as exact rationals. -/
inductive Answer where
  | jabatanCount (jabatan : Str) (count : Nat)
  | jabatanBreakdown (counts : List (Str × Nat))
  | bidangTop (bidang : Str) (count : Nat)
  | bidangCount (bidang : Str) (count : Nat)
  | ktaCount (status : Str) (count : Nat)
  | ktaBreakdown (counts : List (Str × Nat))
  | genderRatio (male female : Nat) (malePct femalePct : ℚ)
  | profil (name jabatan status_kta : Option Str) (usia : Option Int)
      (jenis_kelamin whatsapp email instagram nama_perusahaan
        kategori_bidang_usaha : Option Str) (jmlh_karyawan : Option Int)
  | kontak (name whatsapp email : Option Str)
  | perusahaan (name nama_perusahaan jabatan_perusahaan bidang_usaha : Option Str)
  | totalKaryawan (total : Int) (pengurusWithData : Nat)
deriving DecidableEq

/-- `group_by` counting over the non-null values of a column, in
first-occurrence order (row order of ties under `order_by(count desc)` is
backend-dependent and irrelevant to the claims). -/
def groupCounts (vals : List Str) : List (Str × Nat) := countFreq vals

/-- Handler 1, `handle_jabatan_query`. -/
def handle_jabatan_query (q : Str) (db : List Member) : Option Answer :=
  if !(containsSub (S "berapa") q &&
      (containsSub (S "jabatan") q || containsSub (S "ketua") q ||
        containsSub (S "sekum") q || containsSub (S "bendum") q)) then
    none
  else
    match firstQuoted q with
    | some jabatan_name =>
        some (.jabatanCount jabatan_name
          (db.filter (fun m => colLike m.jabatan jabatan_name)).length)
    | none =>
      if containsSub (S "per jabatan") q ||
          containsSub (S "jumlah pengurus per jabatan") q then
        let counts := sortDesc (groupCounts (db.filterMap Member.jabatan))
        if counts.isEmpty then none else some (.jabatanBreakdown counts)
      else none

/-- Handler 2, `handle_bidang_usaha_query`. -/
def handle_bidang_usaha_query (q : Str) (db : List Member) : Option Answer :=
  if !(containsSub (S "bidang usaha") q || containsSub (S "kategori bisnis") q) then
    none
  else
    let top :=
      if containsSub (S "paling banyak") q || containsSub (S "terbanyak") q then
        (sortDesc (groupCounts (db.filterMap Member.kategori_bidang_usaha))).head?
      else none
    match top with
    | some bn => some (.bidangTop bn.1 bn.2)
    | none =>
      if containsSub (S "berapa") q then
        match firstQuoted q with
        | some bidang_name =>
            some (.bidangCount bidang_name
              (db.filter (fun m => colLike m.kategori_bidang_usaha bidang_name)).length)
        | none => none
      else none

/-- Handler 3, `handle_kta_query`; the quoted literal is extracted from the
original-case query. -/
def handle_kta_query (qlow query : Str) (db : List Member) : Option Answer :=
  if !(containsSub (S "kta") qlow) then none
  else
    match firstQuoted query with
    | some status_name =>
        some (.ktaCount status_name
          (db.filter (fun m => colLike m.status_kta status_name)).length)
    | none =>
      if containsSub (S "tampilkan status kta") qlow then
        let counts := groupCounts (db.filterMap Member.status_kta)
        if counts.isEmpty then none else some (.ktaBreakdown counts)
      else none

/-- Handler 4, `handle_gender_query`; with a zero combined total the handler
produces no answer at all (the `total > 0` guard). -/
def handle_gender_query (q : Str) (db : List Member) : Option Answer :=
  if containsSub (S "rasio") q &&
      (containsSub (S "pria") q || containsSub (S "wanita") q ||
        containsSub (S "gender") q) then
    let male := (db.filter (fun m => decide (m.jenis_kelamin = some (S "Male")))).length
    let female := (db.filter (fun m => decide (m.jenis_kelamin = some (S "Female")))).length
    let total := male + female
    if 0 < total then
      some (.genderRatio male female ((male : ℚ) / total * 100) ((female : ℚ) / total * 100))
    else none
  else none

/-- The fixed filler-word list of handler 5, in replacement order. -/
def fillerWords : List Str :=
  [S "cari", S "info", S "lengkap", S "siapa", S "jabatannya", S "apa",
   S "sebagai", S "perusahaannya", S "umurnya", S "kontaknya"]

/-- Handler 5's name extraction: a quoted literal, or the query with every
filler word replaced by a space and then stripped, kept when longer than two
characters. -/
def extract_detail_name (q : Str) : Option Str :=
  match firstQuoted q with
  | some n => some n
  | none =>
    let stripped := pyStrip (fillerWords.foldl (fun acc w => replaceBySpace w acc) q)
    if !stripped.isEmpty && decide (2 < stripped.length) then some stripped else none

/-- Handler 5, `handle_detail_pengurus_query`. -/
def handle_detail_pengurus_query (q : Str) (db : List Member) : Option Answer :=
  if !(containsSub (S "cari") q || containsSub (S "info") q ||
      containsSub (S "siapa") q || containsSub (S "jabatannya") q) then
    none
  else
    match extract_detail_name q with
    | none => none
    | some name =>
      match db.find? (fun m => colLike m.name name) with
      | none => none
      | some m =>
          some (.profil m.name m.jabatan m.status_kta m.usia m.jenis_kelamin
            m.phone m.email m.instagram m.nama_perusahaan
            m.kategori_bidang_usaha m.jmlh_karyawan)

/-- Handler 6, `handle_kontak_query`. -/
def handle_kontak_query (q : Str) (db : List Member) : Option Answer :=
  if !(containsSub (S "nomor") q || containsSub (S "wa") q ||
      containsSub (S "whatsapp") q || containsSub (S "email") q ||
      containsSub (S "kontak") q) then
    none
  else
    match firstQuoted q with
    | none => none
    | some name =>
      match db.find? (fun m => colLike m.name name) with
      | none => none
      | some m => some (.kontak m.name m.phone m.email)

/-- Handler 7, `handle_perusahaan_query`. -/
def handle_perusahaan_query (q : Str) (db : List Member) : Option Answer :=
  if !(containsSub (S "perusahaan") q && containsSub (S "nama") q) then none
  else
    match firstQuoted q with
    | none => none
    | some name =>
      match db.find? (fun m => colLike m.name name) with
      | none => none
      | some m =>
          some (.perusahaan m.name m.nama_perusahaan
            m.jabatan_dlm_akta_perusahaan m.kategori_bidang_usaha)

/-- Handler 8, `handle_total_karyawan_query`. -/
def handle_total_karyawan_query (q : Str) (db : List Member) : Option Answer :=
  if containsSub (S "total") q && containsSub (S "karyawan") q then
    some (.totalKaryawan ((db.filterMap Member.jmlh_karyawan).foldl (· + ·) 0)
      (db.filter (fun m => m.jmlh_karyawan.isSome)).length)
  else none

/-- `detect_specific_query`: the fixed ordered chain of the eight handlers;
evaluation returns the first non-null result. -/
def detect_specific_query (query : Str) (db : List Member) : Option Answer :=
  let q := lowerStr query
  match handle_jabatan_query q db with
  | some r => some r
  | none =>
  match handle_bidang_usaha_query q db with
  | some r => some r
  | none =>
  match handle_kta_query q query db with
  | some r => some r
  | none =>
  match handle_gender_query q db with
  | some r => some r
  | none =>
  match handle_detail_pengurus_query q db with
  | some r => some r
  | none =>
  match handle_kontak_query q db with
  | some r => some r
  | none =>
  match handle_perusahaan_query q db with
  | some r => some r
  | none => handle_total_karyawan_query q db

/-! ## Documents (`app/models/universal_document.py`) -/

/-- The fixed-shape entity map produced by `_extract_entities`. -/
structure Entities where
  dates : List Str
  numbers : List Str
  organizations : List Str
  emails : List Str
  urls : List Str
  phone_numbers : List Str
deriving DecidableEq

/-- One extracted table: originating page, raw cell matrix, row and column
counts. -/
structure TableData where
  page : Nat
  data : List (List (Option Str))
  rows : Nat
  cols : Nat
deriving DecidableEq

/-- The PDF metadata map built by `extract_document_content`. -/
structure PdfMeta where
  title : Str
  author : Str
  subject : Str
  creator : Str
  producer : Str
  creation_date : Str
deriving DecidableEq

/-- JSON-like values appearing in the two dictionary projections of a
Document.  Timestamps are modelled as abstract ticks rendered by
`isoformat`. -/
inductive JVal where
  | null
  | str (v : Str)
  | pstr (v : String)
  | int (v : Int)
  | rat (v : ℚ)
  | bool (v : Bool)
  | strList (vs : List Str)
  | entities (e : Entities)
  | tables (ts : List TableData)
  | metaMap (m : PdfMeta)
  | insights (analysis : Str)
  | timestamp (t : Nat)
deriving DecidableEq

/-- A nullable text column rendered into a dictionary value. -/
def optStrVal : Option Str → JVal
  | none => JVal.null
  | some s => JVal.str s

/-- `self.uploaded_at.isoformat() if self.uploaded_at else None`. -/
def optTimeVal : Option Nat → JVal
  | none => JVal.null
  | some t => JVal.timestamp t

/-- `self.ai_insights` (the `{"analysis": ...}` JSON blob) or null. -/
def optInsightsVal : Option Str → JVal
  | none => JVal.null
  | some a => JVal.insights a

/-- The `UniversalDocument` record; nullable columns are `Option`s and
timestamps are ticks. -/
structure UniversalDocument where
  id : Nat
  filename : Str
  file_path : Str
  file_size : ℚ
  document_type : String
  category : Option Str
  tags : List Str
  full_text : Str
  summary : Str
  extracted_entities : Entities
  keywords : List Str
  tables_data : List TableData
  page_count : Nat
  pdf_metadata : PdfMeta
  ai_summary : Option Str
  ai_insights : Option Str
  processed : Bool
  processed_at : Option Nat
  uploaded_at : Option Nat
  updated_at : Option Nat
  uploaded_by : Option Str
  search_index : Str
deriving DecidableEq

/-- `UniversalDocument.to_dict`, as an insertion-ordered dictionary. -/
def to_dict (d : UniversalDocument) : List (String × JVal) :=
  [("id", .int d.id),
   ("filename", .str d.filename),
   ("file_path", .str d.file_path),
   ("file_size", .rat d.file_size),
   ("document_type", .pstr d.document_type),
   ("category", optStrVal d.category),
   ("tags", .strList d.tags),
   ("summary", .str d.summary),
   ("page_count", .int d.page_count),
   ("keywords", .strList d.keywords),
   ("uploaded_at", optTimeVal d.uploaded_at),
   ("processed", .bool d.processed)]

/-- Python `dict.update` with one key/value pair: replace the value in place
when the key exists, otherwise append the pair. -/
def setKey (base : List (String × JVal)) (kv : String × JVal) : List (String × JVal) :=
  if base.any (fun p => p.1 = kv.1) then
    base.map (fun p => if p.1 = kv.1 then (p.1, kv.2) else p)
  else base ++ [kv]

/-- Python `base.update(upd)` over insertion-ordered dictionaries. -/
def dictUpdate (base upd : List (String × JVal)) : List (String × JVal) :=
  upd.foldl setKey base

/-- `UniversalDocument.to_dict_full`: the base dictionary updated with the
six full-content keys. -/
def to_dict_full (d : UniversalDocument) : List (String × JVal) :=
  dictUpdate (to_dict d)
    [("full_text", .str d.full_text),
     ("extracted_entities", .entities d.extracted_entities),
     ("tables_data", .tables d.tables_data),
     ("pdf_metadata", .metaMap d.pdf_metadata),
     ("ai_summary", optStrVal d.ai_summary),
     ("ai_insights", optInsightsVal d.ai_insights)]

/-! ## Document service (`app/services/universal_document_service.py`) -/

/-- Replace the first store entry carrying the given id (the
`get_document_by_id` + mutate + commit sequence). -/
def updateFirstDoc : List UniversalDocument → Nat →
    (UniversalDocument → UniversalDocument) → List UniversalDocument
  | [], _, _ => []
  | d :: rest, i, f =>
    if d.id = i then f d :: rest else d :: updateFirstDoc rest i f

/-- `UniversalDocumentService.update_document_tags`: set `tags` and
`updated_at` on the matching document. -/
def update_document_tags (store : List UniversalDocument) (document_id : Nat)
    (tags : List Str) (now : Nat) : List UniversalDocument :=
  updateFirstDoc store document_id
    (fun d => { d with tags := tags, updated_at := some now })

/-- `UniversalDocumentService.update_document_category`: set `category` and
`updated_at` on the matching document. -/
def update_document_category (store : List UniversalDocument) (document_id : Nat)
    (category : Str) (now : Nat) : List UniversalDocument :=
  updateFirstDoc store document_id
    (fun d => { d with category := some category, updated_at := some now })

/-- A document collection (`DocumentCollection`). -/
structure DocumentCollection where
  id : Nat
  name : Str
  description : Str
  document_ids : List Int
  created_at : Option Nat
  updated_at : Option Nat
  is_active : Bool
deriving DecidableEq

/-- Insert a value into an increasing duplicate-free list. -/
def insSortedDedup (x : Int) : List Int → List Int
  | [] => [x]
  | y :: ys =>
    if x < y then x :: y :: ys
    else if x = y then y :: ys
    else y :: insSortedDedup x ys

/-- Python `list(set(l))`.  CPython enumerates a set of small non-negative
integers in increasing hash-slot order, i.e. increasing value order; set
iteration order is not part of Python's contract, and this model fixes that
concrete enumeration: the increasing enumeration of the distinct values. -/
def pySetList (l : List Int) : List Int :=
  l.foldl (fun acc x => insSortedDedup x acc) []

/-- `UniversalDocumentService.add_documents_to_collection` acting on the
fetched collection: `document_ids = list(set(current_ids + document_ids))`,
plus the `updated_at` refresh. -/
def add_documents_to_collection (c : DocumentCollection) (document_ids : List Int)
    (now : Nat) : DocumentCollection :=
  { c with document_ids := pySetList (c.document_ids ++ document_ids),
           updated_at := some now }

/-! ## Gemini gateway (`app/services/gemini_service.py`) -/

/-- The summary prompt template of `GeminiService.summarize_text` (with its
default `max_length = 500`). -/
def summarizePrompt (text : Str) : Str :=
  S "Buatkan ringkasan singkat (500 karakter) dari teks berikut:\n\n" ++ text ++
    S "\n\nRingkasan:"

/-- `GeminiService.summarize_text`.  The external `_call_api` is an oracle
parameter that either returns the completion or raises; the method itself
never raises: without a key it returns a fixed message, and it converts a
raised gateway error into an `"Error: ..."` string. -/
def summarize_text (apiKey : Option Str) (callApi : Str → Except Str Str)
    (text : Str) : Str :=
  match apiKey with
  | none => S "API Key not configured"
  | some _ =>
    match callApi (summarizePrompt text) with
    | .ok r => r
    | .error e => S "Error: " ++ e

/-! ## Ingestion (`UniversalDocumentService.process_and_save_document`) -/

/-- The result shape of `extract_document_content`.  That function performs
file I/O through the external pdfplumber reader, so its outcome enters the
model as data (its pure keyword subroutine is `extract_keywords` above). -/
structure ExtractedData where
  full_text : Str
  page_count : Nat
  metadata : PdfMeta
  summary : Str
  extracted_entities : Entities
  tables : List TableData
  keywords : List Str
deriving DecidableEq

/-- The insights prompt template of `process_and_save_document`. -/
def insightsPrompt (document_type : String) (full_text : Str) : Str :=
  S "\nAnalyze this document briefly and extract key information:\nDocument Type: " ++
    S document_type ++ S "\nContent: " ++ full_text.take 8000 ++
    S "\n\nProvide a brief analysis covering:\n1. Main topics (2-3 points)\n2. Key findings (2-3 points)\n3. Important entities (people, organizations, dates)\n"

/-- `UniversalDocumentService.process_and_save_document`, given the extraction
result for the stored file.  The document is committed with `processed = true`
before any enrichment; when enrichment runs, the two gateway calls go through
`summarize_text`, which never raises, and both AI fields are then assigned and
committed. -/
def process_and_save_document
    (store : List UniversalDocument) (nextId : Nat)
    (file_path filename : Str) (file_size : ℚ)
    (category : Option Str) (tags : Option (List Str)) (uploaded_by : Option Str)
    (generate_ai_summary : Bool)
    (extracted : ExtractedData)
    (apiKey : Option Str) (callApi : Str → Except Str Str)
    (now : Nat) : UniversalDocument × List UniversalDocument :=
  let document_type := detect_document_type filename extracted.full_text
  let search_index := filename ++ [' '] ++ extracted.full_text.take 5000
  let doc : UniversalDocument :=
    { id := nextId, filename := filename, file_path := file_path,
      file_size := file_size, document_type := document_type,
      category := category, tags := (tags.getD []),
      full_text := extracted.full_text, summary := extracted.summary,
      extracted_entities := extracted.extracted_entities,
      keywords := extracted.keywords, tables_data := extracted.tables,
      page_count := extracted.page_count, pdf_metadata := extracted.metadata,
      ai_summary := none, ai_insights := none,
      processed := true, processed_at := some now,
      uploaded_at := some now, updated_at := some now,
      uploaded_by := uploaded_by, search_index := search_index }
  let store1 := store ++ [doc]
  if generate_ai_summary && !extracted.full_text.isEmpty then
    let ai_summary := summarize_text apiKey callApi (extracted.full_text.take 15000)
    let ai_insights_text :=
      summarize_text apiKey callApi (insightsPrompt document_type extracted.full_text)
    let doc2 := { doc with ai_summary := some ai_summary,
                           ai_insights := some ai_insights_text }
    (doc2, updateFirstDoc store1 nextId (fun _ => doc2))
  else (doc, store1)

/-! ## Upload route (`app/routes/universal_documents.py`, `upload_any_document`) -/

/-- A raised Python exception: either FastAPI's `HTTPException` or a plain
`Exception` carrying a message. -/
inductive PyExc where
  | http (status_code : Nat) (detail : String)
  | exc (msg : String)
deriving DecidableEq

/-- Python `str(e)`; Starlette renders an `HTTPException` as
`"{status_code}: {detail}"`. -/
def strOfExc : PyExc → String
  | .http code detail => toString code ++ ": " ++ detail
  | .exc m => m

/-- The mutable world the route touches: the byte-blob store keyed by path and
the document table with its id counter. -/
structure UploadState where
  blobs : List (Str × List Nat)
  documents : List UniversalDocument
  nextId : Nat
deriving DecidableEq

/-- Write bytes at a path, overwriting any previous blob at that path. -/
def writeBlob (st : UploadState) (path : Str) (contents : List Nat) : UploadState :=
  { st with blobs := st.blobs.filter (fun b => !(b.1 = path)) ++ [(path, contents)] }

/-- The `%PDF-` signature bytes. -/
def pdfMagic : List Nat := [37, 80, 68, 70, 45]

/-- Detail string of the size check. -/
def tooSmallDetail : String :=
  "Invalid PDF file. File is too small (minimum 1KB required). Please upload a valid PDF document."

/-- Detail string of the signature check. -/
def badHeaderDetail : String :=
  "Invalid PDF file. File does not have valid PDF header. Please upload a valid PDF document."

/-- The success payload of the route (the identifying fields of the returned
JSON; the remaining entries echo the same document record). -/
structure UploadResponse where
  status : String
  message : String
  document_id : Nat
  document_type : String
  processed : Bool
deriving DecidableEq

/-- Comma-split plus strip of the `tags` query parameter. -/
def parseTags : Option Str → List Str
  | none => []
  | some t => (t.splitOn ',').map pyStrip

/-- The body of the route's `try` block: size check, signature check, blob
write, then `process_and_save_document` (whose pdfplumber extraction outcome
is the `extraction` parameter; a reader failure raises
`"Error processing PDF: ..."` after the blob write). -/
def uploadTryBlock (fn : Str) (contents : List Nat) (category : Option Str)
    (tags : Option Str) (generate_ai_summary : Bool)
    (extraction : Except String ExtractedData)
    (apiKey : Option Str) (callApi : Str → Except Str Str) (now : Nat)
    (st : UploadState) : Except PyExc UploadResponse × UploadState :=
  if contents.length < 1024 then
    (.error (.http 400 tooSmallDetail), st)
  else if !(startsW pdfMagic contents) then
    (.error (.http 400 badHeaderDetail), st)
  else
    let file_path := S "uploads/" ++ fn
    let st1 := writeBlob st file_path contents
    let file_size : ℚ := contents.length
    let tags_list := parseTags tags
    match extraction with
    | .error e => (.error (.exc ("Error processing PDF: " ++ e)), st1)
    | .ok ex =>
      let pr := process_and_save_document st1.documents st1.nextId file_path fn
        file_size category (some tags_list) none generate_ai_summary ex apiKey
        callApi now
      let st2 : UploadState :=
        { st1 with documents := pr.2, nextId := st1.nextId + 1 }
      (.ok { status := "success",
             message := "Document uploaded and processed successfully",
             document_id := pr.1.id, document_type := pr.1.document_type,
             processed := pr.1.processed }, st2)

/-- The route `upload_any_document`: the extension check sits outside the
`try` block, while every exception raised inside it — including the route's
own 400 `HTTPException`s — is caught by `except Exception` and re-raised as
HTTP 500 with detail `"Error processing document: " + str(e)`. -/
def upload_any_document (file_filename : Option Str) (contents : List Nat)
    (category : Option Str) (tags : Option Str) (generate_ai_summary : Bool)
    (extraction : Except String ExtractedData)
    (apiKey : Option Str) (callApi : Str → Except Str Str) (now : Nat)
    (st : UploadState) : Except PyExc UploadResponse × UploadState :=
  match file_filename with
  | none => (.error (.http 400 "Only PDF files are allowed"), st)
  | some fn =>
    if !(endsW (S ".pdf") (lowerStr fn)) then
      (.error (.http 400 "Only PDF files are allowed"), st)
    else
      match uploadTryBlock fn contents category tags generate_ai_summary
          extraction apiKey callApi now st with
      | (.error e, st1) =>
          (.error (.http 500 ("Error processing document: " ++ strOfExc e)), st1)
      | ok => ok

/-! ## Characterisation helpers and concrete example data -/

/-- The count stored for a word in an association-list dictionary (0 when
absent). -/
def lookupCount (l : List (Str × Nat)) (w : Str) : Nat :=
  ((l.find? (fun p => decide (p.1 = w))).map Prod.snd).getD 0

/-- The distinct members of a word list in first-occurrence order. -/
def firstOccurrences (ws : List Str) : List Str :=
  ws.foldl (fun acc w => if w ∈ acc then acc else acc ++ [w]) []

/-- Example member "Budi Santoso" used by the router scenarios. -/
def budiMember : Member :=
  { id := 1, name := some (S "Budi Santoso"),
    jabatan := some (S "Ketua Bidang Ekonomi"),
    status_kta := some (S "KTA Fisik"), usia := some 30,
    jenis_kelamin := some (S "Male"), phone := some (S "0812345678"),
    email := some (S "budi@example.com"), instagram := none,
    nama_perusahaan := some (S "PT Maju"),
    jabatan_dlm_akta_perusahaan := some (S "Direktur"),
    kategori_bidang_usaha := some (S "Kuliner"), jmlh_karyawan := some 10 }

/-- Example document with every projection-relevant field populated. -/
def exDoc : UniversalDocument :=
  { id := 7, filename := S "ad.pdf", file_path := S "uploads/ad.pdf",
    file_size := 2048, document_type := "HIPMI_AD",
    category := some (S "org"), tags := [S "hipmi"],
    full_text := S "anggaran dasar", summary := S "anggaran dasar",
    extracted_entities := ⟨[], [], [], [], [], []⟩,
    keywords := [S "anggaran"], tables_data := [],
    page_count := 3, pdf_metadata := ⟨[], [], [], [], [], []⟩,
    ai_summary := none, ai_insights := none,
    processed := true, processed_at := some 5, uploaded_at := some 5,
    updated_at := some 5, uploaded_by := none,
    search_index := S "ad.pdf anggaran dasar" }

/-- Example collection whose stored id list is not in increasing order. -/
def exCollection : DocumentCollection :=
  { id := 1, name := S "c", description := S "d", document_ids := [2, 1],
    created_at := some 0, updated_at := some 0, is_active := true }

/-- Example extraction result with nonempty text. -/
def exExtracted : ExtractedData :=
  { full_text := S "Some document text", page_count := 1,
    metadata := ⟨[], [], [], [], [], []⟩, summary := S "Some document text",
    extracted_entities := ⟨[], [], [], [], [], []⟩, tables := [],
    keywords := [S "document"] }

/-! ## Theorems -/

theorem startsW_trans {α : Type} [DecidableEq α] (p q s : List α)
    (h1 : startsW p q = true) (h2 : startsW q s = true) : startsW p s = true := by
  induction p generalizing q s with
  | nil => simp [startsW]
  | cons a p ih =>
    cases q with
    | nil => simp [startsW] at h1
    | cons b q =>
      cases s with
      | nil => simp [startsW] at h2
      | cons c s =>
        simp only [startsW, Bool.and_eq_true, decide_eq_true_eq] at h1 h2 ⊢
        exact ⟨h1.1.trans h2.1, ih q s h1.2 h2.2⟩

theorem containsSub_of_sub {α : Type} [DecidableEq α] (p q s : List α)
    (hpq : startsW p q = true) (h : containsSub q s = true) :
    containsSub p s = true := by
  induction s with
  | nil =>
    simp only [containsSub] at h ⊢
    exact startsW_trans p q [] hpq h
  | cons c rest ih =>
    simp only [containsSub, Bool.or_eq_true] at h ⊢
    cases h with
    | inl h => exact Or.inl (startsW_trans _ _ _ hpq h)
    | inr h => exact Or.inr (ih h)

/-- C3 counterexample: the filename `laporan ad.pdf` contains `ad.pdf` yet
classifies as `HIPMI_PO` (the substring `po` inside `laporan` fires rule 1),
and for `kontrak.pdf` the rule-1 content check `peraturan organisasi`
overrides the filename rule for `CONTRACT` — so filename rules do not all run
before content rules. -/
theorem detect_document_type_counterexample :
    detect_document_type (S "laporan ad.pdf") (S "") = "HIPMI_PO" ∧
    "HIPMI_PO" ≠ "HIPMI_AD" ∧
    detect_document_type (S "kontrak.pdf") (S "Peraturan Organisasi nomor 5") = "HIPMI_PO" ∧
    "HIPMI_PO" ≠ "CONTRACT" := by
  refine ⟨by decide, by decide, by decide, by decide⟩

/-- C3 (amended): if the lower-cased filename contains `ad.pdf` but not `po`,
and the first 1000 characters of the lower-cased content do not contain
`peraturan organisasi`, the classifier returns `HIPMI_AD` whatever other
trigger terms the content contains; within each priority level the filename
check and that level's content check are interleaved, so this guard on rule 1
is required. -/
theorem detect_document_type_ad_pdf (filename text : Str)
    (h1 : containsSub (S "ad.pdf") (lowerStr filename) = true)
    (h2 : containsSub (S "po") (lowerStr filename) = false)
    (h3 : containsSub (S "peraturan organisasi") ((lowerStr text).take 1000) = false) :
    detect_document_type filename text = "HIPMI_AD" := by
  have had : containsSub (S "ad") (lowerStr filename) = true :=
    containsSub_of_sub (S "ad") (S "ad.pdf") (lowerStr filename) (by decide) h1
  simp [detect_document_type, h2, h3, had]

/-- C3 witness: a filename containing `ad.pdf` with content carrying the
lower-ranked ART trigger still classifies as `HIPMI_AD`. -/
theorem detect_document_type_ad_pdf_witness :
    detect_document_type (S "ad.pdf") (S "anggaran rumah tangga") = "HIPMI_AD" :=
  detect_document_type_ad_pdf (S "ad.pdf") (S "anggaran rumah tangga")
    (by decide) (by decide) (by decide)

/-- C4 counterexample: the query `berapa ketua bidang usaha terbanyak`
satisfies handler #1's trigger and handler #2's trigger, yet handler #1
yields no result (no quoted literal, no `per jabatan` phrase) and the router
returns handler #2's answer, not handler #1's. -/
theorem router_both_triggers_counterexample :
    containsSub (S "berapa") (lowerStr (S "berapa ketua bidang usaha terbanyak")) = true ∧
    containsSub (S "ketua") (lowerStr (S "berapa ketua bidang usaha terbanyak")) = true ∧
    containsSub (S "bidang usaha") (lowerStr (S "berapa ketua bidang usaha terbanyak")) = true ∧
    handle_jabatan_query (lowerStr (S "berapa ketua bidang usaha terbanyak")) [budiMember] = none ∧
    detect_specific_query (S "berapa ketua bidang usaha terbanyak") [budiMember] =
      some (.bidangTop (S "Kuliner") 1) := by
  refine ⟨by decide, by decide, by decide, by decide, by decide⟩

/-- C4 (amended): the router returns handler #1's result whenever handler #1
produces a non-null result, and later handlers then never contribute; on a
query satisfying handler #1's trigger, a quoted literal guarantees such a
result.  Trigger match alone does not: when handler #1 returns null the
evaluation falls through to handler #2. -/
theorem router_first_match :
    (∀ (q : Str) (db : List Member) (a : Answer),
      handle_jabatan_query (lowerStr q) db = some a →
      detect_specific_query q db = some a) ∧
    (∀ (q : Str) (db : List Member) (j : Str),
      containsSub (S "berapa") (lowerStr q) = true →
      (containsSub (S "jabatan") (lowerStr q) || containsSub (S "ketua") (lowerStr q) ||
        containsSub (S "sekum") (lowerStr q) || containsSub (S "bendum") (lowerStr q)) = true →
      firstQuoted (lowerStr q) = some j →
      handle_jabatan_query (lowerStr q) db =
        some (.jabatanCount j (db.filter (fun m => colLike m.jabatan j)).length)) := by
  constructor
  · intro q db a h
    simp [detect_specific_query, h]
  · intro q db j hA hB hq
    simp [handle_jabatan_query, hA, hB, hq]

/-- C4 witness: a quoted-literal jabatan query is answered by handler #1
through the router. -/
theorem router_first_match_witness :
    detect_specific_query (S "Berapa 'ketua'") [] = some (.jabatanCount (S "ketua") 0) :=
  router_first_match.1 (S "Berapa 'ketua'") [] (.jabatanCount (S "ketua") 0) (by decide)

/-- C5 counterexample: for the query `Siapa Budi?` the extracted name keeps
the question mark (`str.strip` removes only whitespace), the `LIKE` lookup on
`%budi?%` finds no member named "Budi Santoso", and the router answers
nothing — handler #5 does not return the profile and the extracted name is
not `budi`. -/
theorem detail_query_question_mark_counterexample :
    extract_detail_name (lowerStr (S "Siapa Budi?")) = some (S "budi?") ∧
    S "budi?" ≠ S "budi" ∧
    handle_detail_pengurus_query (lowerStr (S "Siapa Budi?")) [budiMember] = none ∧
    detect_specific_query (S "Siapa Budi?") [budiMember] = none := by
  refine ⟨by decide, by decide, by decide, by decide⟩

/-- C5 (amended): for the punctuation-free query `Siapa Budi` handler #5
fires, the filler-word stripping extracts `budi`, and the router returns the
full profile block of Budi Santoso; with a trailing `?` the extracted name is
`budi?` and the handler declines. -/
theorem detail_query_budi :
    extract_detail_name (lowerStr (S "Siapa Budi")) = some (S "budi") ∧
    detect_specific_query (S "Siapa Budi") [budiMember] =
      some (.profil (some (S "Budi Santoso")) (some (S "Ketua Bidang Ekonomi"))
        (some (S "KTA Fisik")) (some 30) (some (S "Male")) (some (S "0812345678"))
        (some (S "budi@example.com")) none (some (S "PT Maju"))
        (some (S "Kuliner")) (some 10)) ∧
    extract_detail_name (lowerStr (S "Siapa Budi?")) = some (S "budi?") := by
  refine ⟨by decide, by decide, by decide⟩

/-- C6 counterexample: with no Male/Female members the combined total is zero
and handler #4 returns no answer at all — there is no zero-total answer
carrying the counts. -/
theorem gender_zero_total_counterexample :
    containsSub (S "rasio") (S "rasio gender") = true ∧
    containsSub (S "gender") (S "rasio gender") = true ∧
    handle_gender_query (S "rasio gender") [] = none ∧
    detect_specific_query (S "rasio gender") [] = none := by
  refine ⟨by decide, by decide, by decide, by decide⟩

/-- C6 (amended): on its trigger, handler #4 returns the exact male and
female counts with exact percentages when the combined total is positive, and
returns no answer (falls through) when the total is zero. -/
theorem handle_gender_spec (q : Str) (db : List Member)
    (h1 : containsSub (S "rasio") q = true)
    (h2 : (containsSub (S "pria") q || containsSub (S "wanita") q ||
      containsSub (S "gender") q) = true) :
    (0 < (db.filter (fun m => decide (m.jenis_kelamin = some (S "Male")))).length +
        (db.filter (fun m => decide (m.jenis_kelamin = some (S "Female")))).length →
      handle_gender_query q db = some (.genderRatio
        (db.filter (fun m => decide (m.jenis_kelamin = some (S "Male")))).length
        (db.filter (fun m => decide (m.jenis_kelamin = some (S "Female")))).length
        (((db.filter (fun m => decide (m.jenis_kelamin = some (S "Male")))).length : ℚ) /
          ((db.filter (fun m => decide (m.jenis_kelamin = some (S "Male")))).length +
            (db.filter (fun m => decide (m.jenis_kelamin = some (S "Female")))).length) * 100)
        (((db.filter (fun m => decide (m.jenis_kelamin = some (S "Female")))).length : ℚ) /
          ((db.filter (fun m => decide (m.jenis_kelamin = some (S "Male")))).length +
            (db.filter (fun m => decide (m.jenis_kelamin = some (S "Female")))).length) * 100))) ∧
    ((db.filter (fun m => decide (m.jenis_kelamin = some (S "Male")))).length +
        (db.filter (fun m => decide (m.jenis_kelamin = some (S "Female")))).length = 0 →
      handle_gender_query q db = none) := by
  constructor
  · intro hpos
    simp only [handle_gender_query, h1, h2, Bool.and_self, if_true]
    rw [if_pos hpos]
    push_cast
    ring_nf
  · intro hzero
    simp only [handle_gender_query, h1, h2, Bool.and_self, if_true]
    rw [if_neg (by omega)]

/-- C6 witness: one Male member yields counts 1/0 with percentages 100/0. -/
theorem handle_gender_spec_witness :
    handle_gender_query (S "rasio gender") [budiMember] =
      some (.genderRatio 1 0 100 0) := by
  have h := (handle_gender_spec (S "rasio gender") [budiMember] (by decide) (by decide)).1
    (by decide)
  have e1 : (List.filter (fun m => decide (m.jenis_kelamin = some (S "Male")))
      [budiMember]).length = 1 := by decide
  have e2 : (List.filter (fun m => decide (m.jenis_kelamin = some (S "Female")))
      [budiMember]).length = 0 := by decide
  rw [e1, e2] at h
  norm_num at h
  exact h

theorem mem_insertDesc (x z : Str × Nat) (l : List (Str × Nat)) :
    z ∈ insertDesc x l ↔ z = x ∨ z ∈ l := by
  induction l with
  | nil => simp [insertDesc]
  | cons y ys ih =>
    simp only [insertDesc]
    split
    · simp only [List.mem_cons, ih]
      tauto
    · simp only [List.mem_cons]

theorem pairwise_insertDesc (x : Str × Nat) (l : List (Str × Nat))
    (h : l.Pairwise (fun a b => b.2 ≤ a.2)) :
    (insertDesc x l).Pairwise (fun a b => b.2 ≤ a.2) := by
  induction l with
  | nil => simp [insertDesc]
  | cons y ys ih =>
    rw [List.pairwise_cons] at h
    obtain ⟨hy, hys⟩ := h
    simp only [insertDesc]
    split
    · rename_i hlt
      rw [List.pairwise_cons]
      refine ⟨?_, ih hys⟩
      intro z hz
      rcases (mem_insertDesc x z ys).mp hz with rfl | hz
      · exact le_of_lt hlt
      · exact hy z hz
    · rename_i hge
      rw [List.pairwise_cons]
      refine ⟨?_, List.Pairwise.cons hy hys⟩
      intro z hz
      rcases List.mem_cons.mp hz with rfl | hz
      · omega
      · exact le_trans (hy z hz) (by omega)

theorem pairwise_sortDesc (l : List (Str × Nat)) :
    (sortDesc l).Pairwise (fun a b => b.2 ≤ a.2) := by
  induction l with
  | nil => simp [sortDesc]
  | cons x xs ih => exact pairwise_insertDesc x (sortDesc xs) ih

theorem filter_insertDesc (c : Nat) (x : Str × Nat) (l : List (Str × Nat)) :
    (insertDesc x l).filter (fun y => decide (y.2 = c)) =
      if x.2 = c then x :: l.filter (fun y => decide (y.2 = c))
      else l.filter (fun y => decide (y.2 = c)) := by
  induction l with
  | nil =>
    by_cases hx : x.2 = c <;> simp [insertDesc, List.filter, hx]
  | cons y ys ih =>
    simp only [insertDesc]
    split
    · rename_i hlt
      rw [List.filter_cons, ih]
      by_cases hx : x.2 = c
      · have hy : ¬ y.2 = c := by omega
        simp [hx, hy, List.filter_cons]
      · simp [hx, List.filter_cons]
    · rw [List.filter_cons]
      by_cases hx : x.2 = c
      · simp [hx]
      · simp [hx]

theorem filter_sortDesc (c : Nat) (l : List (Str × Nat)) :
    (sortDesc l).filter (fun y => decide (y.2 = c)) =
      l.filter (fun y => decide (y.2 = c)) := by
  induction l with
  | nil => simp [sortDesc]
  | cons x xs ih =>
    simp only [sortDesc]
    rw [filter_insertDesc, ih, List.filter_cons]
    by_cases hx : x.2 = c
    · simp [hx]
    · simp [hx]

theorem bump_keys (l : List (Str × Nat)) (w : Str) :
    (bump l w).map Prod.fst =
      if w ∈ l.map Prod.fst then l.map Prod.fst else l.map Prod.fst ++ [w] := by
  induction l with
  | nil => simp [bump]
  | cons p rest ih =>
    obtain ⟨k, n⟩ := p
    by_cases hk : k = w
    · subst hk
      simp [bump]
    · by_cases hw : w ∈ rest.map Prod.fst
      · simp [bump, hk, ih, hw, Ne.symm hk]
      · simp [bump, hk, ih, hw, Ne.symm hk]

theorem countFreq_keys_aux (ws : List Str) : ∀ acc : List (Str × Nat),
    (ws.foldl bump acc).map Prod.fst =
      ws.foldl (fun a w => if w ∈ a then a else a ++ [w]) (acc.map Prod.fst) := by
  induction ws with
  | nil => intro acc; simp
  | cons w rest ih =>
    intro acc
    simp only [List.foldl_cons]
    rw [ih (bump acc w), bump_keys]

theorem lookup_bump (l : List (Str × Nat)) (w w' : Str) :
    lookupCount (bump l w) w' = lookupCount l w' + (if w = w' then 1 else 0) := by
  induction l with
  | nil => by_cases h : w = w' <;> simp [bump, lookupCount, List.find?, h]
  | cons p rest ih =>
    obtain ⟨k, n⟩ := p
    by_cases hk : k = w
    · subst hk
      by_cases hw : k = w' <;> simp [bump, lookupCount, List.find?, hw]
    · by_cases hw : k = w'
      · subst hw
        have hww : ¬ w = k := fun h => hk h.symm
        simp [bump, hk, lookupCount, List.find?, hww]
      · simp only [bump, if_neg hk]
        have lhs : lookupCount ((k, n) :: bump rest w) w' = lookupCount (bump rest w) w' := by
          simp [lookupCount, List.find?, hw]
        have rhs : lookupCount ((k, n) :: rest) w' = lookupCount rest w' := by
          simp [lookupCount, List.find?, hw]
        rw [lhs, rhs, ih]

theorem countFreq_lookup_aux (ws : List Str) : ∀ (acc : List (Str × Nat)) (w : Str),
    lookupCount (ws.foldl bump acc) w = lookupCount acc w + ws.count w := by
  induction ws with
  | nil => simp
  | cons w0 rest ih =>
    intro acc w
    simp only [List.foldl_cons]
    rw [ih (bump acc w0) w, lookup_bump]
    by_cases h : w0 = w
    · subst h
      simp [List.count_cons]
      omega
    · simp [List.count_cons, h, Ne.symm h]

/-- C7: the keyword extractor returns at most `topN` tokens; the sorted
frequency table is ordered by non-increasing count; entries with any given
count keep exactly the order of the insertion-ordered frequency table (whose
key order is the first-occurrence order of the kept tokens and whose counts
are the token frequencies); and the extractor is deterministic. -/
theorem extract_keywords_spec (text : Str) (topN : Nat) :
    (extract_keywords text topN).length ≤ topN ∧
    List.Pairwise (fun a b => b.2 ≤ a.2) (sortDesc (word_freq text)) ∧
    (∀ c : Nat, (sortDesc (word_freq text)).filter (fun y => decide (y.2 = c)) =
      (word_freq text).filter (fun y => decide (y.2 = c))) ∧
    (∀ w : Str, lookupCount (word_freq text) w =
      (keptWords (tokenizeWords text)).count w) ∧
    (word_freq text).map Prod.fst = firstOccurrences (keptWords (tokenizeWords text)) ∧
    extract_keywords text topN = extract_keywords text topN := by
  refine ⟨?_, pairwise_sortDesc _, fun c => filter_sortDesc c _, fun w => ?_, ?_, rfl⟩
  · rw [extract_keywords, List.length_map]
    exact le_trans (Nat.le_of_eq (List.length_take _ _)) (min_le_left _ _)
  · rw [word_freq, countFreq, countFreq_lookup_aux]
    simp [lookupCount]
  · rw [word_freq, countFreq, countFreq_keys_aux]
    rfl

theorem find?_append_left {α : Type} (p : α → Bool) (l l' : List α)
    (h : (l.find? p).isSome) : (l ++ l').find? p = l.find? p := by
  induction l with
  | nil => simp [List.find?] at h
  | cons a t ih =>
    by_cases ha : p a
    · simp [List.find?_cons_of_pos, ha]
    · rw [List.cons_append, List.find?_cons_of_neg _ ha, List.find?_cons_of_neg _ ha]
      rw [List.find?_cons_of_neg _ ha] at h
      exact ih h

theorem find?_isSome_of_mem_keys (l : List (String × JVal)) (k : String)
    (h : k ∈ l.map Prod.fst) : (l.find? (fun p => p.1 = k)).isSome := by
  induction l with
  | nil => simp at h
  | cons a t ih =>
    by_cases ha : a.1 = k
    · simp [List.find?_cons_of_pos, ha]
    · rw [List.find?_cons_of_neg _ (by simpa using ha)]
      apply ih
      rw [List.map_cons] at h
      rcases List.mem_cons.mp h with h' | h'
      · exact absurd h'.symm ha
      · exact h'

theorem to_dict_full_eq (d : UniversalDocument) :
    to_dict_full d = to_dict d ++
      [("full_text", .str d.full_text),
       ("extracted_entities", .entities d.extracted_entities),
       ("tables_data", .tables d.tables_data),
       ("pdf_metadata", .metaMap d.pdf_metadata),
       ("ai_summary", optStrVal d.ai_summary),
       ("ai_insights", optInsightsVal d.ai_insights)] := rfl

/-- C8: `to_dict` never carries the key `full_text`, `to_dict_full` always
does, and on every key present in `to_dict` the two projections hold the same
value (`to_dict_full` extends `to_dict` without changing shared keys). -/
theorem to_dict_projections (d : UniversalDocument) :
    ("full_text" ∉ (to_dict d).map Prod.fst) ∧
    ("full_text" ∈ (to_dict_full d).map Prod.fst) ∧
    (∀ k : String, k ∈ (to_dict d).map Prod.fst →
      (to_dict_full d).find? (fun p => p.1 = k) = (to_dict d).find? (fun p => p.1 = k)) := by
  refine ⟨?_, ?_, ?_⟩
  · have hk : (to_dict d).map Prod.fst =
      ["id", "filename", "file_path", "file_size", "document_type", "category",
       "tags", "summary", "page_count", "keywords", "uploaded_at", "processed"] := rfl
    rw [hk]
    decide
  · rw [to_dict_full_eq, List.map_append]
    have hk : (to_dict d).map Prod.fst =
      ["id", "filename", "file_path", "file_size", "document_type", "category",
       "tags", "summary", "page_count", "keywords", "uploaded_at", "processed"] := rfl
    rw [hk]
    simp
  · intro k hk
    rw [to_dict_full_eq]
    exact find?_append_left _ _ _ (find?_isSome_of_mem_keys _ k hk)

/-- C8 witness: the two projections of a concrete document agree on the
shared key `id`. -/
theorem to_dict_projections_witness :
    (to_dict_full exDoc).find? (fun p => p.1 = "id") =
      (to_dict exDoc).find? (fun p => p.1 = "id") :=
  (to_dict_projections exDoc).2.2 "id" (by decide)

/-- All fields other than `category`, `tags` and `updated_at` coincide. -/
def framePreserved (d e : UniversalDocument) : Prop :=
  e.id = d.id ∧ e.filename = d.filename ∧ e.file_path = d.file_path ∧
  e.file_size = d.file_size ∧ e.document_type = d.document_type ∧
  e.full_text = d.full_text ∧ e.summary = d.summary ∧
  e.extracted_entities = d.extracted_entities ∧ e.keywords = d.keywords ∧
  e.tables_data = d.tables_data ∧ e.page_count = d.page_count ∧
  e.pdf_metadata = d.pdf_metadata ∧ e.ai_summary = d.ai_summary ∧
  e.ai_insights = d.ai_insights ∧ e.processed = d.processed ∧
  e.processed_at = d.processed_at ∧ e.uploaded_at = d.uploaded_at ∧
  e.uploaded_by = d.uploaded_by ∧ e.search_index = d.search_index

theorem forall2_updateFirstDoc (P : UniversalDocument → UniversalDocument → Prop)
    (f : UniversalDocument → UniversalDocument) (i : Nat)
    (hrefl : ∀ d, P d d) (hupd : ∀ d, d.id = i → P d (f d)) :
    ∀ store : List UniversalDocument, List.Forall₂ P store (updateFirstDoc store i f) := by
  intro store
  induction store with
  | nil => exact List.Forall₂.nil
  | cons d rest ih =>
    simp only [updateFirstDoc]
    split
    · rename_i hid
      exact List.Forall₂.cons (hupd d hid) (List.forall₂_same.mpr (fun x _ => hrefl x))
    · exact List.Forall₂.cons (hrefl d) ih

/-- C9: `update_document_tags` touches only `tags` and `updated_at`, and
`update_document_category` touches only `category` and `updated_at`; every
other field — in particular `search_index`, `full_text`, `summary`,
`document_type`, `keywords`, `extracted_entities` and `processed` — is
unchanged on every document of the store, and documents with a different id
are untouched. -/
theorem update_document_frame (store : List UniversalDocument) (i : Nat)
    (tags : List Str) (cat : Str) (now : Nat) :
    List.Forall₂ (fun d e => framePreserved d e ∧ e.category = d.category ∧
        (e = d ∨ (d.id = i ∧ e.tags = tags ∧ e.updated_at = some now)))
      store (update_document_tags store i tags now) ∧
    List.Forall₂ (fun d e => framePreserved d e ∧ e.tags = d.tags ∧
        (e = d ∨ (d.id = i ∧ e.category = some cat ∧ e.updated_at = some now)))
      store (update_document_category store i cat now) := by
  constructor
  · exact forall2_updateFirstDoc _ _ i
      (fun d => ⟨by simp [framePreserved], rfl, Or.inl rfl⟩)
      (fun d hid => ⟨by simp [framePreserved], rfl, Or.inr ⟨hid, rfl, rfl⟩⟩) store
  · exact forall2_updateFirstDoc _ _ i
      (fun d => ⟨by simp [framePreserved], rfl, Or.inl rfl⟩)
      (fun d hid => ⟨by simp [framePreserved], rfl, Or.inr ⟨hid, rfl, rfl⟩⟩) store

theorem mem_insSortedDedup (x y : Int) (l : List Int) :
    y ∈ insSortedDedup x l ↔ y = x ∨ y ∈ l := by
  induction l with
  | nil => simp [insSortedDedup]
  | cons z zs ih =>
    simp only [insSortedDedup]
    split
    · simp [List.mem_cons]
    · split
      · rename_i hlt heq
        subst heq
        simp [List.mem_cons]
      · simp only [List.mem_cons, ih]
        tauto

theorem pairwise_insSortedDedup (x : Int) (l : List Int)
    (h : l.Pairwise (· < ·)) : (insSortedDedup x l).Pairwise (· < ·) := by
  induction l with
  | nil => simp [insSortedDedup]
  | cons z zs ih =>
    rw [List.pairwise_cons] at h
    obtain ⟨hz, hzs⟩ := h
    simp only [insSortedDedup]
    split
    · rename_i hlt
      rw [List.pairwise_cons]
      refine ⟨?_, List.Pairwise.cons hz hzs⟩
      intro y hy
      rcases List.mem_cons.mp hy with rfl | hy
      · exact hlt
      · exact lt_trans hlt (hz y hy)
    · split
      · exact List.Pairwise.cons hz hzs
      · rename_i hnlt hne
        rw [List.pairwise_cons]
        refine ⟨?_, ih hzs⟩
        intro y hy
        rcases (mem_insSortedDedup x y zs).mp hy with rfl | hy
        · omega
        · exact hz y hy

theorem pySetList_aux (l : List Int) : ∀ acc : List Int, acc.Pairwise (· < ·) →
    (l.foldl (fun a x => insSortedDedup x a) acc).Pairwise (· < ·) ∧
    (∀ y, y ∈ l.foldl (fun a x => insSortedDedup x a) acc ↔ y ∈ acc ∨ y ∈ l) := by
  induction l with
  | nil =>
    intro acc h
    exact ⟨h, by simp⟩
  | cons x rest ih =>
    intro acc h
    simp only [List.foldl_cons]
    obtain ⟨h1, h2⟩ := ih (insSortedDedup x acc) (pairwise_insSortedDedup x acc h)
    refine ⟨h1, fun y => ?_⟩
    rw [h2 y, mem_insSortedDedup]
    simp only [List.mem_cons]
    tauto

/-- C10: after `add_documents_to_collection` the stored id list is
duplicate-free and holds exactly the union of the old ids and the added ids;
and the relative order of previously stored ids is not preserved — the list
is rebuilt from the set, as the stored order `[2, 1]` becoming `[1, 2]`
shows. -/
theorem add_documents_to_collection_spec :
    (∀ (c : DocumentCollection) (ids : List Int) (now : Nat),
      (add_documents_to_collection c ids now).document_ids.Nodup ∧
      (∀ x : Int, x ∈ (add_documents_to_collection c ids now).document_ids ↔
        x ∈ c.document_ids ∨ x ∈ ids)) ∧
    ¬ exCollection.document_ids.Sublist
        (add_documents_to_collection exCollection [] 0).document_ids := by
  constructor
  · intro c ids now
    obtain ⟨hp, hm⟩ := pySetList_aux (c.document_ids ++ ids) [] List.Pairwise.nil
    constructor
    · exact hp.imp (fun hlt => ne_of_lt hlt)
    · intro x
      have hx := hm x
      simp only [List.mem_append, List.not_mem_nil, false_or] at hx
      exact hx
  · decide

theorem mem_updateFirst_const (l : List UniversalDocument) (i : Nat)
    (e : UniversalDocument) (h : ∃ d ∈ l, d.id = i) :
    e ∈ updateFirstDoc l i (fun _ => e) := by
  induction l with
  | nil =>
    obtain ⟨d, hd, _⟩ := h
    simp at hd
  | cons d rest ih =>
    simp only [updateFirstDoc]
    split
    · exact List.mem_cons_self _ _
    · rename_i hne
      obtain ⟨d', hd', hid⟩ := h
      rcases List.mem_cons.mp hd' with rfl | hd'
      · exact absurd hid hne
      · exact List.mem_cons_of_mem _ (ih ⟨d', hd', hid⟩)

/-- C2 counterexample: on a failing gateway call the AI fields do not stay
absent — `summarize_text` converts the failure into an error string and
`process_and_save_document` commits it into `ai_summary`/`ai_insights`. -/
theorem process_ai_error_counterexample :
    (process_and_save_document [] 1 (S "uploads/f.pdf") (S "f.pdf") 2048 none none
        none true exExtracted (some (S "key"))
        (fun _ => .error (S "Gemini API call failed: boom")) 0).1.ai_summary =
      some (S "Error: Gemini API call failed: boom") ∧
    (process_and_save_document [] 1 (S "uploads/f.pdf") (S "f.pdf") 2048 none none
        none true exExtracted (some (S "key"))
        (fun _ => .error (S "Gemini API call failed: boom")) 0).1.ai_summary ≠
      none := by
  refine ⟨by decide, by decide⟩

/-- C2 (amended): every ingestion commits the document with
`processed = true` and keeps it in the store whatever the enrichment does;
the AI fields stay absent exactly when enrichment does not run (`generate_ai_summary`
false or empty text); when enrichment runs they are always set — to the
gateway completion on success and to the textual error message on failure —
and no enrichment outcome invalidates the ingestion. -/
theorem process_and_save_enrichment
    (store : List UniversalDocument) (nextId : Nat) (fp fn : Str) (fs : ℚ)
    (cat : Option Str) (tags : Option (List Str)) (ub : Option Str)
    (gen : Bool) (ext : ExtractedData) (key : Option Str)
    (call : Str → Except Str Str) (now : Nat) :
    (process_and_save_document store nextId fp fn fs cat tags ub gen ext key
        call now).1.processed = true ∧
    (process_and_save_document store nextId fp fn fs cat tags ub gen ext key
        call now).1 ∈
      (process_and_save_document store nextId fp fn fs cat tags ub gen ext key
        call now).2 ∧
    (¬ (gen = true ∧ ext.full_text ≠ []) →
      (process_and_save_document store nextId fp fn fs cat tags ub gen ext key
          call now).1.ai_summary = none ∧
      (process_and_save_document store nextId fp fn fs cat tags ub gen ext key
          call now).1.ai_insights = none) ∧
    ((gen = true ∧ ext.full_text ≠ []) →
      (process_and_save_document store nextId fp fn fs cat tags ub gen ext key
          call now).1.ai_summary =
        some (summarize_text key call (ext.full_text.take 15000)) ∧
      (process_and_save_document store nextId fp fn fs cat tags ub gen ext key
          call now).1.ai_insights =
        some (summarize_text key call
          (insightsPrompt (detect_document_type fn ext.full_text) ext.full_text))) := by
  have hb : ((gen && !ext.full_text.isEmpty) = true) ↔ (gen = true ∧ ext.full_text ≠ []) := by
    simp [List.isEmpty_iff]
  by_cases hcond : (gen && !ext.full_text.isEmpty) = true
  · simp only [process_and_save_document, hcond, if_true]
    refine ⟨by trivial, ?_, fun hn => absurd (hb.mp hcond) hn,
      fun _ => ⟨by trivial, by trivial⟩⟩
    exact mem_updateFirst_const _ _ _
      ⟨_, List.mem_append.mpr (Or.inr (List.mem_cons_self _ _)), rfl⟩
  · simp only [process_and_save_document, hcond, if_false]
    refine ⟨by trivial, ?_, fun _ => ⟨by trivial, by trivial⟩,
      fun hy => absurd (hb.mpr hy) hcond⟩
    exact List.mem_append.mpr (Or.inr (List.mem_cons_self _ _))

/-- C2 witness: with no API key configured, enrichment still sets the AI
summary field — to the fixed message — while the ingestion stays valid. -/
theorem process_and_save_enrichment_witness :
    (process_and_save_document [] 1 (S "uploads/f.pdf") (S "f.pdf") 2048 none none
        none true exExtracted none (fun p => .ok p) 0).1.ai_summary =
      some (S "API Key not configured") := by
  have h := process_and_save_enrichment [] 1 (S "uploads/f.pdf") (S "f.pdf") 2048
    none none none true exExtracted none (fun p => .ok p) 0
  have h2 := h.2.2.2 ⟨rfl, by decide⟩
  exact h2.1.trans (by decide)

/-- C1: for a `.pdf`-named upload whose bytes are shorter than 1 KB or lack
the `%PDF-` signature, the route raises its 400 `InvalidInput`
`HTTPException`, but the surrounding `except Exception` catches it and
re-raises HTTP 500 wrapping the message; no blob is written and no document
is created — the state is returned unchanged. -/
theorem upload_invalid_input (fn : Str) (contents : List Nat)
    (category : Option Str) (tags : Option Str) (gen : Bool)
    (extraction : Except String ExtractedData) (apiKey : Option Str)
    (callApi : Str → Except Str Str) (now : Nat) (st : UploadState)
    (hext : endsW (S ".pdf") (lowerStr fn) = true)
    (hbad : contents.length < 1024 ∨ startsW pdfMagic contents = false) :
    upload_any_document (some fn) contents category tags gen extraction apiKey
        callApi now st =
      (.error (.http 500 ("Error processing document: " ++ strOfExc (.http 400
        (if contents.length < 1024 then tooSmallDetail else badHeaderDetail)))),
        st) := by
  by_cases hlt : contents.length < 1024
  · simp [upload_any_document, uploadTryBlock, hext, hlt]
  · have hsw : startsW pdfMagic contents = false := by tauto
    simp [upload_any_document, uploadTryBlock, hext, hlt, hsw]

/-- C1 witness: a one-byte upload named `doc.pdf` yields the wrapped 500
error and leaves the state untouched. -/
theorem upload_invalid_input_witness :
    upload_any_document (some (S "doc.pdf")) [37] none none false (.error "x")
        none (fun p => .ok p) 0 ⟨[], [], 1⟩ =
      (.error (.http 500 ("Error processing document: " ++
        strOfExc (.http 400 tooSmallDetail))), (⟨[], [], 1⟩ : UploadState)) := by
  have h := upload_invalid_input (S "doc.pdf") [37] none none false (.error "x")
    none (fun p => .ok p) 0 ⟨[], [], 1⟩ (by decide) (Or.inl (by decide))
  simpa using h
